import Mathlib

/-!
Shallow embedding of `src/adapter/DatabaseAdapter.ts` from the
koji-database-sdk repository.

The adapter is a dual-mode HTTP client: in `immediate` mode every public
operation performs a network call at once; in `transaction` mode the five
mutation operations are appended to an in-memory queue that
`commitTransaction` later flushes as one combined call.

Modelling choices:
 * JavaScript JSON values are the inductive `Json`; `undefined` is
   represented by `Option Json` (`none` = undefined).  `JSON.stringify`
   drops object fields whose value is undefined, so optional request-body
   fields are modelled by omitting the field.
 * The network (`request-promise-native`'s `rp`) is an oracle
   `RequestOptions → Except RemoteError Json` supplied through `World`;
   a rejected promise is `Except.error` carrying the optional numeric
   `statusCode` of the rejection.  For the multipart upload endpoint,
   whose resolved value is a raw string that the adapter passes through
   `JSON.parse`, the oracle directly yields the parsed value.
 * Each method returns a `MethodResult`: the settled value or thrown
   error, the post-state of the adapter, and the list of network calls
   the invocation issued (each element is one `rp` invocation, in order).
 * JavaScript property access on `null`/`undefined` throws a `TypeError`;
   on other non-objects it yields `undefined`.  `jsGetField` and
   `jsIndexZero` encode exactly that.
 * `process.env.NODE_TEST` is the `nodeTest` flag of `World`;
   `process.env.KOJI_PROJECT_ID` / `KOJI_PROJECT_TOKEN` are modelled by
   `ProcessEnv` with `Option String` values, where JavaScript truthiness
   makes both `none` and `some ""` falsy (`envTruthy`).
-/

/-- JavaScript JSON values (the `undefined` case is `Option Json := none`
at use sites, since `undefined` is not a JSON value). -/
inductive Json where
  | null : Json
  | bool (b : Bool) : Json
  | num (n : Int) : Json
  | str (s : String) : Json
  | arr (elems : List Json) : Json
  | obj (fields : List (String × Json)) : Json

/-- A JavaScript runtime error raised by property access on
`null`/`undefined`. -/
inductive JsError where
  | typeError : JsError
deriving DecidableEq

/-- Property access `v[key]` on a possibly-undefined JavaScript value:
throws `TypeError` on `null`/`undefined`; yields the field (or
`undefined`) on objects; yields `undefined` on other primitives and on
arrays (for non-index keys, which is the only use here).  Object keys
are unique at runtime, so the first match is the field. -/
def jsGetField : Option Json → String → Except JsError (Option Json)
  | none, _ => Except.error JsError.typeError
  | some Json.null, _ => Except.error JsError.typeError
  | some (Json.obj fields), key => Except.ok ((fields.find? (fun f => f.1 = key)).map (fun f => f.2))
  | some _, _ => Except.ok none

/-- Index access `v[0]` on a possibly-undefined JavaScript value
(`transcodeAsset`'s `callbackTokens[0]`): throws on `null`/`undefined`;
first element (or `undefined` when empty) on arrays; the first character
on strings; field `"0"` on objects; `undefined` on other primitives. -/
def jsIndexZero : Option Json → Except JsError (Option Json)
  | none => Except.error JsError.typeError
  | some Json.null => Except.error JsError.typeError
  | some (Json.arr elems) => Except.ok elems.head?
  | some (Json.str s) => Except.ok (s.data.head?.map (fun c => Json.str (String.mk [c])))
  | some (Json.obj fields) => jsGetField (some (Json.obj fields)) "0"
  | some _ => Except.ok none

/-- The configuration record `Config` (`src/Config.ts`, imported by the
adapter): project id and project token. -/
structure Config where
  projectId : String
  projectToken : String
deriving DecidableEq

/-- `enum DatabaseAdapterMode` from the source. -/
inductive DatabaseAdapterMode where
  | transaction : DatabaseAdapterMode
  | immediate : DatabaseAdapterMode
deriving DecidableEq

/-- The `formData` payload of `uploadFile`: a file read-stream for `path`
plus optional filename and content type (the stream itself carries no
further observable data at this boundary). -/
structure FileFormData where
  path : String
  filename : Option String
  contentType : Option String
deriving DecidableEq

/-- `rp.OptionsWithUri` as the adapter builds it: `uri`, `method`,
`headers`, the `json` flag, an optional JSON `body`, and optional
multipart `formData`. -/
structure RequestOptions where
  uri : String
  method : String
  headers : List (String × String)
  json : Bool
  body : Option Json
  formData : Option FileFormData

/-- A rejected network call: rp rejection errors optionally carry a
numeric `statusCode` (absent for transport-level failures). -/
structure RemoteError where
  statusCode : Option Nat
deriving DecidableEq

/-- The external world: the `NODE_TEST` environment flag consulted by
`buildUri`, and the remote service as an oracle from request options to
the settled outcome of the `rp` promise. -/
structure World where
  nodeTest : Bool
  oracle : RequestOptions → Except RemoteError Json

/-- `process.env` as the constructor reads it. -/
structure ProcessEnv where
  KOJI_PROJECT_ID : Option String
  KOJI_PROJECT_TOKEN : Option String
deriving DecidableEq

/-- JavaScript truthiness of an environment variable: `undefined` and the
empty string are falsy. -/
def envTruthy : Option String → Bool
  | none => false
  | some s => s ≠ ""

/-- The adapter's instance state: configuration, mode, and the
transaction queue (`transactionQueue`, empty at construction). -/
structure DatabaseAdapter where
  config : Config
  mode : DatabaseAdapterMode
  transactionQueue : List RequestOptions

/-- Error outcomes observable from adapter methods: `thrown msg` is
`throw new Error(msg)`; `remote e` is an rp rejection propagated raw
(only `commitTransaction` can do that, having no catch). -/
inductive Failure where
  | thrown (message : String) : Failure
  | remote (e : RemoteError) : Failure
deriving DecidableEq

/-- Message of the error thrown when a network-only operation is invoked
in transaction mode. -/
def unavailableInTransactionMessage : String := "not available inside transaction"

/-- Message of the error thrown by read operations on a remote 404. -/
def documentNotFoundMessage : String := "Document not found"

/-- Message of the generic error thrown on other remote failures. -/
def serviceErrorMessage : String := "Service error"

/-- Message of the error thrown by `commitTransaction` outside a
transaction (the typo is the source's). -/
def notInTransactionMessage : String := "not in a trasaction"

/-- Message of the error thrown by the constructor when the environment
lacks credentials (punctuation elided, content as in the source). -/
def missingConfigMessage : String :=
  "Could not find a KOJI_PROJECT_ID or KOJI_PROJECT_TOKEN in your environment. " ++
  "If you are accessing the SDK from outside of a KojiDatabase project, you need to either " ++
  "supply a custom configuration object, or export the KOJI_PROJECT_ID and " ++
  "KOJI_PROJECT_TOKEN in your script."

/-- The `authHeaders` getter (a function of the configuration the getter
reads): the two project headers. -/
def DatabaseAdapter.authHeadersOf (c : Config) : List (String × String) :=
  [("X-Koji-Project-Id", c.projectId), ("X-Koji-Project-Token", c.projectToken)]

/-- The `headers` getter: `Content-Type: application/json` followed by the
auth headers. -/
def DatabaseAdapter.headersOf (c : Config) : List (String × String) :=
  ("Content-Type", "application/json") :: DatabaseAdapter.authHeadersOf c

/-- `buildUri`: local test host when `NODE_TEST` is set, production host
otherwise. -/
def buildUri (nodeTest : Bool) (path : String) : String :=
  if nodeTest then "http://localhost:3129" ++ path
  else "https://database.api.gokoji.com" ++ path

/-- The constructor
`new DatabaseAdapter(customConfig, mode)`: an explicit configuration is
taken as given; otherwise both environment variables must be truthy or
the constructor throws. -/
def DatabaseAdapter.construct (customConfig : Option Config) (env : ProcessEnv)
    (mode : DatabaseAdapterMode) : Except Failure DatabaseAdapter :=
  match customConfig with
  | some c => Except.ok { config := c, mode := mode, transactionQueue := [] }
  | none =>
    if envTruthy env.KOJI_PROJECT_ID = false ∨ envTruthy env.KOJI_PROJECT_TOKEN = false then
      Except.error (Failure.thrown missingConfigMessage)
    else
      Except.ok
        { config :=
            { projectId := env.KOJI_PROJECT_ID.getD "",
              projectToken := env.KOJI_PROJECT_TOKEN.getD "" },
          mode := mode,
          transactionQueue := [] }

/-- `beginTransaction`: a fresh adapter with the same configuration and
mode forced to `transaction` (the constructor cannot fail when given an
explicit configuration). -/
def DatabaseAdapter.beginTransaction (a : DatabaseAdapter) : DatabaseAdapter :=
  { config := a.config, mode := DatabaseAdapterMode.transaction, transactionQueue := [] }

/-- The outcome of the private `request` helper: the settled promise
value (`none` when the options were queued instead), the adapter
post-state, and the network calls issued. -/
structure RequestStep where
  response : Option (Except RemoteError Json)
  adapter : DatabaseAdapter
  calls : List RequestOptions

/-- The private `request` helper: in transaction mode, push the options
onto the queue and return `undefined`; otherwise fire the request now. -/
def DatabaseAdapter.request (a : DatabaseAdapter) (oracle : RequestOptions → Except RemoteError Json)
    (options : RequestOptions) : RequestStep :=
  if a.mode = DatabaseAdapterMode.transaction then
    { response := none,
      adapter := { a with transactionQueue := a.transactionQueue ++ [options] },
      calls := [] }
  else
    { response := some (oracle options), adapter := a, calls := [options] }

/-- Outcome of one public method invocation: settled value or thrown
error, adapter post-state, network calls issued (in order). -/
structure MethodResult (α : Type) where
  result : Except Failure α
  adapter : DatabaseAdapter
  calls : List RequestOptions

/-- `get(collection, documentName?)`: POST `/v1/store/get`, returning
`response.document`; 404 becomes the document-not-found error, any other
failure the service error.  The `none` response branch is unreachable
under the mode guard; it is rendered as the service error, which is what
the caught property-access failure would produce. -/
def DatabaseAdapter.get (w : World) (a : DatabaseAdapter) (collection : String)
    (documentName : Option String) : MethodResult (Option Json) :=
  if a.mode = DatabaseAdapterMode.transaction then
    { result := Except.error (Failure.thrown unavailableInTransactionMessage),
      adapter := a, calls := [] }
  else
    let options : RequestOptions :=
      { uri := buildUri w.nodeTest ("/v1/store/get"),
        method := "POST",
        headers := DatabaseAdapter.headersOf a.config,
        json := true,
        body := some (Json.obj (("collection", Json.str collection) ::
          (match documentName with
           | some d => [("documentName", Json.str d)]
           | none => []))),
        formData := none }
    let step := DatabaseAdapter.request a w.oracle options
    match step.response with
    | none =>
      { result := Except.error (Failure.thrown serviceErrorMessage),
        adapter := step.adapter, calls := step.calls }
    | some (Except.error e) =>
      if e.statusCode = some 404 then
        { result := Except.error (Failure.thrown documentNotFoundMessage),
          adapter := step.adapter, calls := step.calls }
      else
        { result := Except.error (Failure.thrown serviceErrorMessage),
          adapter := step.adapter, calls := step.calls }
    | some (Except.ok response) =>
      match jsGetField (some response) ("document") with
      | Except.ok v =>
        { result := Except.ok v, adapter := step.adapter, calls := step.calls }
      | Except.error _ =>
        { result := Except.error (Failure.thrown serviceErrorMessage),
          adapter := step.adapter, calls := step.calls }

/-- `getCollections()`: POST `/v1/store/getCollections` with the empty
body, returning `response.collections`; its catch block maps every
failure, 404 included, to the service error. -/
def DatabaseAdapter.getCollections (w : World) (a : DatabaseAdapter) :
    MethodResult (Option Json) :=
  if a.mode = DatabaseAdapterMode.transaction then
    { result := Except.error (Failure.thrown unavailableInTransactionMessage),
      adapter := a, calls := [] }
  else
    let options : RequestOptions :=
      { uri := buildUri w.nodeTest ("/v1/store/getCollections"),
        method := "POST",
        headers := DatabaseAdapter.headersOf a.config,
        json := true,
        body := some (Json.obj []),
        formData := none }
    let step := DatabaseAdapter.request a w.oracle options
    match step.response with
    | none =>
      { result := Except.error (Failure.thrown serviceErrorMessage),
        adapter := step.adapter, calls := step.calls }
    | some (Except.error _) =>
      { result := Except.error (Failure.thrown serviceErrorMessage),
        adapter := step.adapter, calls := step.calls }
    | some (Except.ok response) =>
      match jsGetField (some response) ("collections") with
      | Except.ok v =>
        { result := Except.ok v, adapter := step.adapter, calls := step.calls }
      | Except.error _ =>
        { result := Except.error (Failure.thrown serviceErrorMessage),
          adapter := step.adapter, calls := step.calls }

/-- `search(collection, queryKey, queryValue)`: POST `/v1/store/search`,
returning `response.results`; 404 becomes the document-not-found error. -/
def DatabaseAdapter.search (w : World) (a : DatabaseAdapter)
    (collection queryKey queryValue : String) : MethodResult (Option Json) :=
  if a.mode = DatabaseAdapterMode.transaction then
    { result := Except.error (Failure.thrown unavailableInTransactionMessage),
      adapter := a, calls := [] }
  else
    let options : RequestOptions :=
      { uri := buildUri w.nodeTest ("/v1/store/search"),
        method := "POST",
        headers := DatabaseAdapter.headersOf a.config,
        json := true,
        body := some (Json.obj
          [("collection", Json.str collection),
           ("queryKey", Json.str queryKey),
           ("queryValue", Json.str queryValue)]),
        formData := none }
    let step := DatabaseAdapter.request a w.oracle options
    match step.response with
    | none =>
      { result := Except.error (Failure.thrown serviceErrorMessage),
        adapter := step.adapter, calls := step.calls }
    | some (Except.error e) =>
      if e.statusCode = some 404 then
        { result := Except.error (Failure.thrown documentNotFoundMessage),
          adapter := step.adapter, calls := step.calls }
      else
        { result := Except.error (Failure.thrown serviceErrorMessage),
          adapter := step.adapter, calls := step.calls }
    | some (Except.ok response) =>
      match jsGetField (some response) ("results") with
      | Except.ok v =>
        { result := Except.ok v, adapter := step.adapter, calls := step.calls }
      | Except.error _ =>
        { result := Except.error (Failure.thrown serviceErrorMessage),
          adapter := step.adapter, calls := step.calls }

/-- `getWhere(collection, predicateKey, predicateOperation,
predicateValue)`: POST `/v1/store/get` with a predicate body, returning
`response.document`; 404 becomes the document-not-found error. -/
def DatabaseAdapter.getWhere (w : World) (a : DatabaseAdapter)
    (collection predicateKey predicateOperation predicateValue : String) :
    MethodResult (Option Json) :=
  if a.mode = DatabaseAdapterMode.transaction then
    { result := Except.error (Failure.thrown unavailableInTransactionMessage),
      adapter := a, calls := [] }
  else
    let options : RequestOptions :=
      { uri := buildUri w.nodeTest ("/v1/store/get"),
        method := "POST",
        headers := DatabaseAdapter.headersOf a.config,
        json := true,
        body := some (Json.obj
          [("collection", Json.str collection),
           ("predicate", Json.obj
             [("key", Json.str predicateKey),
              ("operation", Json.str predicateOperation),
              ("value", Json.str predicateValue)])]),
        formData := none }
    let step := DatabaseAdapter.request a w.oracle options
    match step.response with
    | none =>
      { result := Except.error (Failure.thrown serviceErrorMessage),
        adapter := step.adapter, calls := step.calls }
    | some (Except.error e) =>
      if e.statusCode = some 404 then
        { result := Except.error (Failure.thrown documentNotFoundMessage),
          adapter := step.adapter, calls := step.calls }
      else
        { result := Except.error (Failure.thrown serviceErrorMessage),
          adapter := step.adapter, calls := step.calls }
    | some (Except.ok response) =>
      match jsGetField (some response) ("document") with
      | Except.ok v =>
        { result := Except.ok v, adapter := step.adapter, calls := step.calls }
      | Except.error _ =>
        { result := Except.error (Failure.thrown serviceErrorMessage),
          adapter := step.adapter, calls := step.calls }

/-- `getAll(collection, documentNames)`: POST `/v1/store/getAll`,
returning `response.results`; 404 becomes the document-not-found error. -/
def DatabaseAdapter.getAll (w : World) (a : DatabaseAdapter)
    (collection : String) (documentNames : List String) : MethodResult (Option Json) :=
  if a.mode = DatabaseAdapterMode.transaction then
    { result := Except.error (Failure.thrown unavailableInTransactionMessage),
      adapter := a, calls := [] }
  else
    let options : RequestOptions :=
      { uri := buildUri w.nodeTest ("/v1/store/getAll"),
        method := "POST",
        headers := DatabaseAdapter.headersOf a.config,
        json := true,
        body := some (Json.obj
          [("collection", Json.str collection),
           ("documentNames", Json.arr (documentNames.map Json.str))]),
        formData := none }
    let step := DatabaseAdapter.request a w.oracle options
    match step.response with
    | none =>
      { result := Except.error (Failure.thrown serviceErrorMessage),
        adapter := step.adapter, calls := step.calls }
    | some (Except.error e) =>
      if e.statusCode = some 404 then
        { result := Except.error (Failure.thrown documentNotFoundMessage),
          adapter := step.adapter, calls := step.calls }
      else
        { result := Except.error (Failure.thrown serviceErrorMessage),
          adapter := step.adapter, calls := step.calls }
    | some (Except.ok response) =>
      match jsGetField (some response) ("results") with
      | Except.ok v =>
        { result := Except.ok v, adapter := step.adapter, calls := step.calls }
      | Except.error _ =>
        { result := Except.error (Failure.thrown serviceErrorMessage),
          adapter := step.adapter, calls := step.calls }

/-- `getAllWhere(collection, predicateKey, predicateOperation,
predicateValues)`: POST `/v1/store/getAllWhere`, returning
`response.results`; 404 becomes the document-not-found error. -/
def DatabaseAdapter.getAllWhere (w : World) (a : DatabaseAdapter)
    (collection predicateKey predicateOperation : String)
    (predicateValues : List String) : MethodResult (Option Json) :=
  if a.mode = DatabaseAdapterMode.transaction then
    { result := Except.error (Failure.thrown unavailableInTransactionMessage),
      adapter := a, calls := [] }
  else
    let options : RequestOptions :=
      { uri := buildUri w.nodeTest ("/v1/store/getAllWhere"),
        method := "POST",
        headers := DatabaseAdapter.headersOf a.config,
        json := true,
        body := some (Json.obj
          [("collection", Json.str collection),
           ("predicateKey", Json.str predicateKey),
           ("predicateOperation", Json.str predicateOperation),
           ("predicateValues", Json.arr (predicateValues.map Json.str))]),
        formData := none }
    let step := DatabaseAdapter.request a w.oracle options
    match step.response with
    | none =>
      { result := Except.error (Failure.thrown serviceErrorMessage),
        adapter := step.adapter, calls := step.calls }
    | some (Except.error e) =>
      if e.statusCode = some 404 then
        { result := Except.error (Failure.thrown documentNotFoundMessage),
          adapter := step.adapter, calls := step.calls }
      else
        { result := Except.error (Failure.thrown serviceErrorMessage),
          adapter := step.adapter, calls := step.calls }
    | some (Except.ok response) =>
      match jsGetField (some response) ("results") with
      | Except.ok v =>
        { result := Except.ok v, adapter := step.adapter, calls := step.calls }
      | Except.error _ =>
        { result := Except.error (Failure.thrown serviceErrorMessage),
          adapter := step.adapter, calls := step.calls }

/-- `set(collection, documentName, documentBody)`: POST `/v1/store/set`.
In transaction mode the options are queued and the call resolves with no
value (`Except.ok none`); in immediate mode the call resolves `some true`
on success and `some false` on any failure.  Both settled branches
re-check the mode exactly as the source does after the awaited request. -/
def DatabaseAdapter.set (w : World) (a : DatabaseAdapter)
    (collection documentName : String) (documentBody : Json) :
    MethodResult (Option Bool) :=
  let options : RequestOptions :=
    { uri := buildUri w.nodeTest ("/v1/store/set"),
      method := "POST",
      headers := DatabaseAdapter.headersOf a.config,
      json := true,
      body := some (Json.obj
        [("collection", Json.str collection),
         ("documentName", Json.str documentName),
         ("documentBody", documentBody)]),
      formData := none }
  let step := DatabaseAdapter.request a w.oracle options
  match step.response with
  | none =>
    if a.mode = DatabaseAdapterMode.transaction then
      { result := Except.ok none, adapter := step.adapter, calls := step.calls }
    else
      { result := Except.ok (some true), adapter := step.adapter, calls := step.calls }
  | some (Except.ok _) =>
    if a.mode = DatabaseAdapterMode.transaction then
      { result := Except.ok none, adapter := step.adapter, calls := step.calls }
    else
      { result := Except.ok (some true), adapter := step.adapter, calls := step.calls }
  | some (Except.error _) =>
    { result := Except.ok (some false), adapter := step.adapter, calls := step.calls }

/-- `update(collection, documentName, documentBody)`: POST
`/v1/store/update`, with the same queueing and boolean behaviour as
`set`. -/
def DatabaseAdapter.update (w : World) (a : DatabaseAdapter)
    (collection documentName : String) (documentBody : Json) :
    MethodResult (Option Bool) :=
  let options : RequestOptions :=
    { uri := buildUri w.nodeTest ("/v1/store/update"),
      method := "POST",
      headers := DatabaseAdapter.headersOf a.config,
      json := true,
      body := some (Json.obj
        [("collection", Json.str collection),
         ("documentName", Json.str documentName),
         ("documentBody", documentBody)]),
      formData := none }
  let step := DatabaseAdapter.request a w.oracle options
  match step.response with
  | none =>
    if a.mode = DatabaseAdapterMode.transaction then
      { result := Except.ok none, adapter := step.adapter, calls := step.calls }
    else
      { result := Except.ok (some true), adapter := step.adapter, calls := step.calls }
  | some (Except.ok _) =>
    if a.mode = DatabaseAdapterMode.transaction then
      { result := Except.ok none, adapter := step.adapter, calls := step.calls }
    else
      { result := Except.ok (some true), adapter := step.adapter, calls := step.calls }
  | some (Except.error _) =>
    { result := Except.ok (some false), adapter := step.adapter, calls := step.calls }

/-- `arrayPush(collection, documentName, documentBody)`: POST
`/v1/store/update/push`, with the same queueing and boolean behaviour as
`set`. -/
def DatabaseAdapter.arrayPush (w : World) (a : DatabaseAdapter)
    (collection documentName : String) (documentBody : Json) :
    MethodResult (Option Bool) :=
  let options : RequestOptions :=
    { uri := buildUri w.nodeTest ("/v1/store/update/push"),
      method := "POST",
      headers := DatabaseAdapter.headersOf a.config,
      json := true,
      body := some (Json.obj
        [("collection", Json.str collection),
         ("documentName", Json.str documentName),
         ("documentBody", documentBody)]),
      formData := none }
  let step := DatabaseAdapter.request a w.oracle options
  match step.response with
  | none =>
    if a.mode = DatabaseAdapterMode.transaction then
      { result := Except.ok none, adapter := step.adapter, calls := step.calls }
    else
      { result := Except.ok (some true), adapter := step.adapter, calls := step.calls }
  | some (Except.ok _) =>
    if a.mode = DatabaseAdapterMode.transaction then
      { result := Except.ok none, adapter := step.adapter, calls := step.calls }
    else
      { result := Except.ok (some true), adapter := step.adapter, calls := step.calls }
  | some (Except.error _) =>
    { result := Except.ok (some false), adapter := step.adapter, calls := step.calls }

/-- `arrayRemove(collection, documentName, documentBody)`: POST
`/v1/store/update/remove`, with the same queueing and boolean behaviour
as `set`. -/
def DatabaseAdapter.arrayRemove (w : World) (a : DatabaseAdapter)
    (collection documentName : String) (documentBody : Json) :
    MethodResult (Option Bool) :=
  let options : RequestOptions :=
    { uri := buildUri w.nodeTest ("/v1/store/update/remove"),
      method := "POST",
      headers := DatabaseAdapter.headersOf a.config,
      json := true,
      body := some (Json.obj
        [("collection", Json.str collection),
         ("documentName", Json.str documentName),
         ("documentBody", documentBody)]),
      formData := none }
  let step := DatabaseAdapter.request a w.oracle options
  match step.response with
  | none =>
    if a.mode = DatabaseAdapterMode.transaction then
      { result := Except.ok none, adapter := step.adapter, calls := step.calls }
    else
      { result := Except.ok (some true), adapter := step.adapter, calls := step.calls }
  | some (Except.ok _) =>
    if a.mode = DatabaseAdapterMode.transaction then
      { result := Except.ok none, adapter := step.adapter, calls := step.calls }
    else
      { result := Except.ok (some true), adapter := step.adapter, calls := step.calls }
  | some (Except.error _) =>
    { result := Except.ok (some false), adapter := step.adapter, calls := step.calls }

/-- `delete(collection, documentName)`: POST `/v1/store/delete` with body
`collection, documentName`, with the same queueing and boolean behaviour
as `set`. -/
def DatabaseAdapter.delete (w : World) (a : DatabaseAdapter)
    (collection documentName : String) : MethodResult (Option Bool) :=
  let options : RequestOptions :=
    { uri := buildUri w.nodeTest ("/v1/store/delete"),
      method := "POST",
      headers := DatabaseAdapter.headersOf a.config,
      json := true,
      body := some (Json.obj
        [("collection", Json.str collection),
         ("documentName", Json.str documentName)]),
      formData := none }
  let step := DatabaseAdapter.request a w.oracle options
  match step.response with
  | none =>
    if a.mode = DatabaseAdapterMode.transaction then
      { result := Except.ok none, adapter := step.adapter, calls := step.calls }
    else
      { result := Except.ok (some true), adapter := step.adapter, calls := step.calls }
  | some (Except.ok _) =>
    if a.mode = DatabaseAdapterMode.transaction then
      { result := Except.ok none, adapter := step.adapter, calls := step.calls }
    else
      { result := Except.ok (some true), adapter := step.adapter, calls := step.calls }
  | some (Except.error _) =>
    { result := Except.ok (some false), adapter := step.adapter, calls := step.calls }

/-- Result shape of `generateSignedUploadRequest`, as destructured at
runtime (typed `SignedUploadRequest` in the source). -/
structure SignedUploadRequest where
  url : Option Json
  signedRequest : Option Json

/-- Result shape of `transcodeAsset`. -/
structure TranscodeResult where
  url : Option Json
  callbackToken : Option Json

/-- Result shape of `getTranscodeStatus`: the remote `isResolved` field
renamed to `isFinished`. -/
structure TranscodeStatus where
  isFinished : Option Json

/-- `uploadFile(path, filename?, contentType?)`: POST multipart
`/v1/objectStore/upload` with only the auth headers, returning the `url`
field of the JSON-parsed response; any failure, including a parse or
property-access failure, becomes the service error. -/
def DatabaseAdapter.uploadFile (w : World) (a : DatabaseAdapter) (path : String)
    (filename contentType : Option String) : MethodResult (Option Json) :=
  if a.mode = DatabaseAdapterMode.transaction then
    { result := Except.error (Failure.thrown unavailableInTransactionMessage),
      adapter := a, calls := [] }
  else
    let options : RequestOptions :=
      { uri := buildUri w.nodeTest ("/v1/objectStore/upload"),
        method := "POST",
        headers := DatabaseAdapter.authHeadersOf a.config,
        json := false,
        body := none,
        formData := some { path := path, filename := filename, contentType := contentType } }
    let step := DatabaseAdapter.request a w.oracle options
    match step.response with
    | none =>
      { result := Except.error (Failure.thrown serviceErrorMessage),
        adapter := step.adapter, calls := step.calls }
    | some (Except.error _) =>
      { result := Except.error (Failure.thrown serviceErrorMessage),
        adapter := step.adapter, calls := step.calls }
    | some (Except.ok response) =>
      match jsGetField (some response) ("url") with
      | Except.ok v =>
        { result := Except.ok v, adapter := step.adapter, calls := step.calls }
      | Except.error _ =>
        { result := Except.error (Failure.thrown serviceErrorMessage),
          adapter := step.adapter, calls := step.calls }

/-- `generateSignedUploadRequest(fileName)`: POST
`/v1/objectStore/generateSignedRequest` with only the auth headers,
destructuring `url` and `signedRequest` from the response; any failure
becomes the service error. -/
def DatabaseAdapter.generateSignedUploadRequest (w : World) (a : DatabaseAdapter)
    (fileName : String) : MethodResult SignedUploadRequest :=
  if a.mode = DatabaseAdapterMode.transaction then
    { result := Except.error (Failure.thrown unavailableInTransactionMessage),
      adapter := a, calls := [] }
  else
    let options : RequestOptions :=
      { uri := buildUri w.nodeTest ("/v1/objectStore/generateSignedRequest"),
        method := "POST",
        headers := DatabaseAdapter.authHeadersOf a.config,
        json := true,
        body := some (Json.obj [("fileName", Json.str fileName)]),
        formData := none }
    let step := DatabaseAdapter.request a w.oracle options
    match step.response with
    | none =>
      { result := Except.error (Failure.thrown serviceErrorMessage),
        adapter := step.adapter, calls := step.calls }
    | some (Except.error _) =>
      { result := Except.error (Failure.thrown serviceErrorMessage),
        adapter := step.adapter, calls := step.calls }
    | some (Except.ok response) =>
      match jsGetField (some response) ("url") with
      | Except.error _ =>
        { result := Except.error (Failure.thrown serviceErrorMessage),
          adapter := step.adapter, calls := step.calls }
      | Except.ok u =>
        match jsGetField (some response) ("signedRequest") with
        | Except.error _ =>
          { result := Except.error (Failure.thrown serviceErrorMessage),
            adapter := step.adapter, calls := step.calls }
        | Except.ok s =>
          { result := Except.ok { url := u, signedRequest := s },
            adapter := step.adapter, calls := step.calls }

/-- `transcodeAsset(path, transcodeType)`: POST
`/v1/objectStore/transcode` with only the auth headers, destructuring
`url` and `callbackTokens` and returning `callbackTokens[0]` as the
callback token; any failure, including the index access throwing on a
missing `callbackTokens`, becomes the service error. -/
def DatabaseAdapter.transcodeAsset (w : World) (a : DatabaseAdapter)
    (path transcodeType : String) : MethodResult TranscodeResult :=
  if a.mode = DatabaseAdapterMode.transaction then
    { result := Except.error (Failure.thrown unavailableInTransactionMessage),
      adapter := a, calls := [] }
  else
    let options : RequestOptions :=
      { uri := buildUri w.nodeTest ("/v1/objectStore/transcode"),
        method := "POST",
        headers := DatabaseAdapter.authHeadersOf a.config,
        json := true,
        body := some (Json.obj
          [("path", Json.str path), ("type", Json.str transcodeType)]),
        formData := none }
    let step := DatabaseAdapter.request a w.oracle options
    match step.response with
    | none =>
      { result := Except.error (Failure.thrown serviceErrorMessage),
        adapter := step.adapter, calls := step.calls }
    | some (Except.error _) =>
      { result := Except.error (Failure.thrown serviceErrorMessage),
        adapter := step.adapter, calls := step.calls }
    | some (Except.ok response) =>
      match jsGetField (some response) ("url") with
      | Except.error _ =>
        { result := Except.error (Failure.thrown serviceErrorMessage),
          adapter := step.adapter, calls := step.calls }
      | Except.ok u =>
        match jsGetField (some response) ("callbackTokens") with
        | Except.error _ =>
          { result := Except.error (Failure.thrown serviceErrorMessage),
            adapter := step.adapter, calls := step.calls }
        | Except.ok tokens =>
          match jsIndexZero tokens with
          | Except.error _ =>
            { result := Except.error (Failure.thrown serviceErrorMessage),
              adapter := step.adapter, calls := step.calls }
          | Except.ok tok =>
            { result := Except.ok { url := u, callbackToken := tok },
              adapter := step.adapter, calls := step.calls }

/-- `getTranscodeStatus(callbackToken)`: POST
`/v1/objectStore/transcode/status` with only the auth headers, returning
the remote `isResolved` as `isFinished`; any failure becomes the service
error. -/
def DatabaseAdapter.getTranscodeStatus (w : World) (a : DatabaseAdapter)
    (callbackToken : String) : MethodResult TranscodeStatus :=
  if a.mode = DatabaseAdapterMode.transaction then
    { result := Except.error (Failure.thrown unavailableInTransactionMessage),
      adapter := a, calls := [] }
  else
    let options : RequestOptions :=
      { uri := buildUri w.nodeTest ("/v1/objectStore/transcode/status"),
        method := "POST",
        headers := DatabaseAdapter.authHeadersOf a.config,
        json := true,
        body := some (Json.obj [("callbackToken", Json.str callbackToken)]),
        formData := none }
    let step := DatabaseAdapter.request a w.oracle options
    match step.response with
    | none =>
      { result := Except.error (Failure.thrown serviceErrorMessage),
        adapter := step.adapter, calls := step.calls }
    | some (Except.error _) =>
      { result := Except.error (Failure.thrown serviceErrorMessage),
        adapter := step.adapter, calls := step.calls }
    | some (Except.ok response) =>
      match jsGetField (some response) ("isResolved") with
      | Except.ok v =>
        { result := Except.ok { isFinished := v },
          adapter := step.adapter, calls := step.calls }
      | Except.error _ =>
        { result := Except.error (Failure.thrown serviceErrorMessage),
          adapter := step.adapter, calls := step.calls }

/-- One entry of the combined transaction payload: the source maps each
queued option record to an object with its `uri` and `body` fields
(`body` is dropped by serialization when undefined). -/
def commitEntry (o : RequestOptions) : Json :=
  Json.obj (("uri", Json.str o.uri) ::
    (match o.body with
     | some b => [("body", b)]
     | none => []))

/-- `commitTransaction()`: throws outside transaction mode; otherwise
issues exactly one POST to `/v1/store/transaction`, with only the auth
headers, whose body lists every queued entry in order.  The queue is not
cleared; a rejection propagates raw (there is no catch). -/
def DatabaseAdapter.commitTransaction (w : World) (a : DatabaseAdapter) :
    MethodResult Unit :=
  if a.mode ≠ DatabaseAdapterMode.transaction then
    { result := Except.error (Failure.thrown notInTransactionMessage),
      adapter := a, calls := [] }
  else
    let options : RequestOptions :=
      { uri := buildUri w.nodeTest ("/v1/store/transaction"),
        method := "POST",
        headers := DatabaseAdapter.authHeadersOf a.config,
        json := true,
        body := some (Json.obj
          [("operations", Json.arr (a.transactionQueue.map commitEntry))]),
        formData := none }
    match w.oracle options with
    | Except.ok _ =>
      { result := Except.ok (), adapter := a, calls := [options] }
    | Except.error e =>
      { result := Except.error (Failure.remote e), adapter := a, calls := [options] }

/-- One invocation of a queueable mutation method, with its arguments. -/
inductive MutationCall where
  | set (collection documentName : String) (documentBody : Json) : MutationCall
  | update (collection documentName : String) (documentBody : Json) : MutationCall
  | arrayPush (collection documentName : String) (documentBody : Json) : MutationCall
  | arrayRemove (collection documentName : String) (documentBody : Json) : MutationCall
  | delete (collection documentName : String) : MutationCall

/-- The request options a given mutation invocation builds (a function of
the test flag and the configuration only). -/
def mutationOptions (nodeTest : Bool) (c : Config) : MutationCall → RequestOptions
  | MutationCall.set collection documentName documentBody =>
    { uri := buildUri nodeTest ("/v1/store/set"),
      method := "POST",
      headers := DatabaseAdapter.headersOf c,
      json := true,
      body := some (Json.obj
        [("collection", Json.str collection),
         ("documentName", Json.str documentName),
         ("documentBody", documentBody)]),
      formData := none }
  | MutationCall.update collection documentName documentBody =>
    { uri := buildUri nodeTest ("/v1/store/update"),
      method := "POST",
      headers := DatabaseAdapter.headersOf c,
      json := true,
      body := some (Json.obj
        [("collection", Json.str collection),
         ("documentName", Json.str documentName),
         ("documentBody", documentBody)]),
      formData := none }
  | MutationCall.arrayPush collection documentName documentBody =>
    { uri := buildUri nodeTest ("/v1/store/update/push"),
      method := "POST",
      headers := DatabaseAdapter.headersOf c,
      json := true,
      body := some (Json.obj
        [("collection", Json.str collection),
         ("documentName", Json.str documentName),
         ("documentBody", documentBody)]),
      formData := none }
  | MutationCall.arrayRemove collection documentName documentBody =>
    { uri := buildUri nodeTest ("/v1/store/update/remove"),
      method := "POST",
      headers := DatabaseAdapter.headersOf c,
      json := true,
      body := some (Json.obj
        [("collection", Json.str collection),
         ("documentName", Json.str documentName),
         ("documentBody", documentBody)]),
      formData := none }
  | MutationCall.delete collection documentName =>
    { uri := buildUri nodeTest ("/v1/store/delete"),
      method := "POST",
      headers := DatabaseAdapter.headersOf c,
      json := true,
      body := some (Json.obj
        [("collection", Json.str collection),
         ("documentName", Json.str documentName)]),
      formData := none }

/-- Run one mutation invocation through the corresponding method. -/
def runMutation (w : World) (a : DatabaseAdapter) : MutationCall → MethodResult (Option Bool)
  | MutationCall.set collection documentName documentBody =>
    DatabaseAdapter.set w a collection documentName documentBody
  | MutationCall.update collection documentName documentBody =>
    DatabaseAdapter.update w a collection documentName documentBody
  | MutationCall.arrayPush collection documentName documentBody =>
    DatabaseAdapter.arrayPush w a collection documentName documentBody
  | MutationCall.arrayRemove collection documentName documentBody =>
    DatabaseAdapter.arrayRemove w a collection documentName documentBody
  | MutationCall.delete collection documentName =>
    DatabaseAdapter.delete w a collection documentName

/-- Run a sequence of mutation invocations, threading the adapter state
and concatenating the network calls each invocation issues, in order. -/
def runMutations (w : World) (a : DatabaseAdapter) :
    List MutationCall → DatabaseAdapter × List RequestOptions
  | [] => (a, [])
  | m :: ms =>
    let r := runMutation w a m
    let rest := runMutations w r.adapter ms
    (rest.1, r.calls ++ rest.2)

/-- One invocation of any public adapter method, with its arguments. -/
inductive OperationCall where
  | get (collection : String) (documentName : Option String) : OperationCall
  | getCollections : OperationCall
  | search (collection queryKey queryValue : String) : OperationCall
  | getWhere (collection predicateKey predicateOperation predicateValue : String) : OperationCall
  | getAll (collection : String) (documentNames : List String) : OperationCall
  | getAllWhere (collection predicateKey predicateOperation : String)
      (predicateValues : List String) : OperationCall
  | set (collection documentName : String) (documentBody : Json) : OperationCall
  | update (collection documentName : String) (documentBody : Json) : OperationCall
  | arrayPush (collection documentName : String) (documentBody : Json) : OperationCall
  | arrayRemove (collection documentName : String) (documentBody : Json) : OperationCall
  | delete (collection documentName : String) : OperationCall
  | uploadFile (path : String) (filename contentType : Option String) : OperationCall
  | generateSignedUploadRequest (fileName : String) : OperationCall
  | transcodeAsset (path transcodeType : String) : OperationCall
  | getTranscodeStatus (callbackToken : String) : OperationCall
  | commitTransaction : OperationCall

/-- The thrown error of a settled method result, if any. -/
def failureOf {α : Type} : Except Failure α → Option Failure
  | Except.ok _ => none
  | Except.error e => some e

/-- The mode-and-effect view of a method result: adapter post-state,
network calls issued, thrown error if any. -/
def effectView {α : Type} (r : MethodResult α) :
    DatabaseAdapter × List RequestOptions × Option Failure :=
  (r.adapter, r.calls, failureOf r.result)

/-- Run any public method invocation, observing its state change, network
calls, and thrown error. -/
def runOperation (w : World) (a : DatabaseAdapter) :
    OperationCall → DatabaseAdapter × List RequestOptions × Option Failure
  | OperationCall.get collection documentName =>
    effectView (DatabaseAdapter.get w a collection documentName)
  | OperationCall.getCollections =>
    effectView (DatabaseAdapter.getCollections w a)
  | OperationCall.search collection queryKey queryValue =>
    effectView (DatabaseAdapter.search w a collection queryKey queryValue)
  | OperationCall.getWhere collection predicateKey predicateOperation predicateValue =>
    effectView (DatabaseAdapter.getWhere w a collection predicateKey predicateOperation predicateValue)
  | OperationCall.getAll collection documentNames =>
    effectView (DatabaseAdapter.getAll w a collection documentNames)
  | OperationCall.getAllWhere collection predicateKey predicateOperation predicateValues =>
    effectView (DatabaseAdapter.getAllWhere w a collection predicateKey predicateOperation predicateValues)
  | OperationCall.set collection documentName documentBody =>
    effectView (DatabaseAdapter.set w a collection documentName documentBody)
  | OperationCall.update collection documentName documentBody =>
    effectView (DatabaseAdapter.update w a collection documentName documentBody)
  | OperationCall.arrayPush collection documentName documentBody =>
    effectView (DatabaseAdapter.arrayPush w a collection documentName documentBody)
  | OperationCall.arrayRemove collection documentName documentBody =>
    effectView (DatabaseAdapter.arrayRemove w a collection documentName documentBody)
  | OperationCall.delete collection documentName =>
    effectView (DatabaseAdapter.delete w a collection documentName)
  | OperationCall.uploadFile path filename contentType =>
    effectView (DatabaseAdapter.uploadFile w a path filename contentType)
  | OperationCall.generateSignedUploadRequest fileName =>
    effectView (DatabaseAdapter.generateSignedUploadRequest w a fileName)
  | OperationCall.transcodeAsset path transcodeType =>
    effectView (DatabaseAdapter.transcodeAsset w a path transcodeType)
  | OperationCall.getTranscodeStatus callbackToken =>
    effectView (DatabaseAdapter.getTranscodeStatus w a callbackToken)
  | OperationCall.commitTransaction =>
    effectView (DatabaseAdapter.commitTransaction w a)

/-- The operations guarded by the transaction-mode check at method entry:
the six read-family operations and the four object-store operations. -/
def isNetworkOnly : OperationCall → Bool
  | OperationCall.get _ _ => true
  | OperationCall.getCollections => true
  | OperationCall.search _ _ _ => true
  | OperationCall.getWhere _ _ _ _ => true
  | OperationCall.getAll _ _ => true
  | OperationCall.getAllWhere _ _ _ _ => true
  | OperationCall.uploadFile _ _ _ => true
  | OperationCall.generateSignedUploadRequest _ => true
  | OperationCall.transcodeAsset _ _ => true
  | OperationCall.getTranscodeStatus _ => true
  | _ => false

/-- The operations whose request is built with the full `headers` getter
(`Content-Type` plus the auth headers): the eleven store data-plane
operations.  The object-store operations and the combined commit use
only the auth headers. -/
def carriesContentType : OperationCall → Bool
  | OperationCall.get _ _ => true
  | OperationCall.getCollections => true
  | OperationCall.search _ _ _ => true
  | OperationCall.getWhere _ _ _ _ => true
  | OperationCall.getAll _ _ => true
  | OperationCall.getAllWhere _ _ _ _ => true
  | OperationCall.set _ _ _ => true
  | OperationCall.update _ _ _ => true
  | OperationCall.arrayPush _ _ _ => true
  | OperationCall.arrayRemove _ _ _ => true
  | OperationCall.delete _ _ => true
  | _ => false

/-- The six read-family operations. -/
def isReadFamily : OperationCall → Bool
  | OperationCall.get _ _ => true
  | OperationCall.getCollections => true
  | OperationCall.search _ _ _ => true
  | OperationCall.getWhere _ _ _ _ => true
  | OperationCall.getAll _ _ => true
  | OperationCall.getAllWhere _ _ _ _ => true
  | _ => false

/-- The read-family operations whose catch block distinguishes a remote
404 (everything but `getCollections`). -/
def mapsNotFound : OperationCall → Bool
  | OperationCall.get _ _ => true
  | OperationCall.search _ _ _ => true
  | OperationCall.getWhere _ _ _ _ => true
  | OperationCall.getAll _ _ => true
  | OperationCall.getAllWhere _ _ _ _ => true
  | _ => false

/-- A sample configuration for concrete instances. -/
def sampleConfig : Config := { projectId := "p1", projectToken := "t1" }

/-- A world whose remote accepts every request with a null body. -/
def sampleWorldOk : World := { nodeTest := true, oracle := fun _ => Except.ok Json.null }

/-- A world whose remote rejects every request with status 404. -/
def sampleWorld404 : World :=
  { nodeTest := true, oracle := fun _ => Except.error { statusCode := some 404 } }

/-- A world whose remote rejects every request with status 500. -/
def sampleWorld500 : World :=
  { nodeTest := true, oracle := fun _ => Except.error { statusCode := some 500 } }

/-- A concrete transaction-mode adapter. -/
def txAdapter : DatabaseAdapter :=
  { config := sampleConfig, mode := DatabaseAdapterMode.transaction, transactionQueue := [] }

/-- A concrete immediate-mode adapter. -/
def immAdapter : DatabaseAdapter :=
  { config := sampleConfig, mode := DatabaseAdapterMode.immediate, transactionQueue := [] }

/-- In transaction mode every mutation invocation settles with no value,
issues no network call, and appends exactly its request options to the
queue. -/
theorem runMutation_transaction (w : World) (a : DatabaseAdapter) (m : MutationCall)
    (h : a.mode = DatabaseAdapterMode.transaction) :
    runMutation w a m =
      { result := Except.ok none,
        adapter := { a with transactionQueue :=
          a.transactionQueue ++ [mutationOptions w.nodeTest a.config m] },
        calls := [] } := by
  cases m <;>
    simp [runMutation, DatabaseAdapter.set, DatabaseAdapter.update,
      DatabaseAdapter.arrayPush, DatabaseAdapter.arrayRemove, DatabaseAdapter.delete,
      DatabaseAdapter.request, mutationOptions, h]

/-- Running a sequence of mutations on a transaction-mode adapter issues
no network call and appends the corresponding options in invocation
order. -/
theorem runMutations_transaction (w : World) (ms : List MutationCall) (a : DatabaseAdapter)
    (h : a.mode = DatabaseAdapterMode.transaction) :
    runMutations w a ms =
      ({ a with transactionQueue :=
          a.transactionQueue ++ ms.map (mutationOptions w.nodeTest a.config) }, []) := by
  induction ms generalizing a with
  | nil => simp [runMutations]
  | cons m ms ih =>
    rw [runMutations, runMutation_transaction w a m h]
    rw [ih { a with transactionQueue :=
      a.transactionQueue ++ [mutationOptions w.nodeTest a.config m] } h]
    simp

/-- C1: a `beginTransaction()` child followed by any sequence of N queued
mutations and one `commitTransaction()` issues no network call during
the mutations and exactly one network call at commit, to the combined
transaction endpoint, whose body lists exactly the N queued operations
as `uri`/`body` entries in invocation order. -/
theorem transaction_commit_single_ordered_call (w : World) (parent : DatabaseAdapter)
    (ms : List MutationCall) :
    (runMutations w parent.beginTransaction ms).2 = [] ∧
    (DatabaseAdapter.commitTransaction w (runMutations w parent.beginTransaction ms).1).calls =
      [{ uri := buildUri w.nodeTest ("/v1/store/transaction"),
         method := "POST",
         headers := DatabaseAdapter.authHeadersOf parent.config,
         json := true,
         body := some (Json.obj
           [("operations",
             Json.arr (ms.map (fun m =>
               commitEntry (mutationOptions w.nodeTest parent.config m))))]),
         formData := none }] := by
  rw [runMutations_transaction w ms parent.beginTransaction rfl]
  refine ⟨rfl, ?_⟩
  simp only [DatabaseAdapter.commitTransaction, DatabaseAdapter.beginTransaction]
  split
  · simp_all
  · split <;> simp [List.map_map, Function.comp]

/-- C2: on a transaction-mode client, every queueable mutation issues no
network call, appends its request options to the queue, and resolves
with no result value. -/
theorem transaction_mutation_queues_without_network (w : World) (a : DatabaseAdapter)
    (m : MutationCall) (h : a.mode = DatabaseAdapterMode.transaction) :
    runMutation w a m =
      { result := Except.ok none,
        adapter := { a with transactionQueue :=
          a.transactionQueue ++ [mutationOptions w.nodeTest a.config m] },
        calls := [] } :=
  runMutation_transaction w a m h

/-- Witness for C2 at a concrete transaction client and `delete` call. -/
theorem transaction_mutation_queues_without_network_witness :
    runMutation sampleWorldOk txAdapter (MutationCall.delete ("c") ("d")) =
      { result := Except.ok none,
        adapter := { txAdapter with transactionQueue :=
          txAdapter.transactionQueue ++
            [mutationOptions sampleWorldOk.nodeTest txAdapter.config
              (MutationCall.delete ("c") ("d"))] },
        calls := [] } :=
  transaction_mutation_queues_without_network sampleWorldOk txAdapter
    (MutationCall.delete ("c") ("d")) rfl

/-- C3: on a transaction-mode client, every read-family and object-store
operation fails with the unavailable-in-transaction error, issues no
network call, and leaves the adapter (in particular its queue)
unchanged. -/
theorem network_only_unavailable_in_transaction (w : World) (a : DatabaseAdapter)
    (op : OperationCall) (h1 : a.mode = DatabaseAdapterMode.transaction)
    (h2 : isNetworkOnly op = true) :
    runOperation w a op = (a, [], some (Failure.thrown unavailableInTransactionMessage)) := by
  cases op <;>
    simp_all [runOperation, effectView, failureOf, isNetworkOnly,
      DatabaseAdapter.get, DatabaseAdapter.getCollections, DatabaseAdapter.search,
      DatabaseAdapter.getWhere, DatabaseAdapter.getAll, DatabaseAdapter.getAllWhere,
      DatabaseAdapter.uploadFile, DatabaseAdapter.generateSignedUploadRequest,
      DatabaseAdapter.transcodeAsset, DatabaseAdapter.getTranscodeStatus]

/-- Witness for C3 at a concrete transaction client and `getCollections`
call. -/
theorem network_only_unavailable_in_transaction_witness :
    runOperation sampleWorldOk txAdapter OperationCall.getCollections =
      (txAdapter, [], some (Failure.thrown unavailableInTransactionMessage)) :=
  network_only_unavailable_in_transaction sampleWorldOk txAdapter
    OperationCall.getCollections rfl rfl

/-- Counterexample to C4 as stated: `getCollections` on an immediate
client whose remote rejects with status 404 fails with the generic
service error, not the document-not-found error. -/
theorem read_404_counterexample :
    (DatabaseAdapter.getCollections sampleWorld404 immAdapter).result =
      Except.error (Failure.thrown serviceErrorMessage) ∧
    serviceErrorMessage ≠ documentNotFoundMessage :=
  ⟨rfl, by decide⟩

/-- C4 amended: on an immediate client whose remote rejects every request
with error `e`, a read-family operation fails with the document-not-found
error exactly when the status is 404 and the operation is not
`getCollections`; every other failure, including a 404 on
`getCollections`, becomes the generic service error. -/
theorem read_error_mapping (w : World) (a : DatabaseAdapter) (op : OperationCall)
    (e : RemoteError)
    (h1 : a.mode = DatabaseAdapterMode.immediate)
    (h2 : isReadFamily op = true)
    (he : ∀ o, w.oracle o = Except.error e) :
    (runOperation w a op).2.2 =
      some (Failure.thrown
        (if e.statusCode = some 404 ∧ mapsNotFound op = true
         then documentNotFoundMessage
         else serviceErrorMessage)) := by
  cases op <;>
    simp_all [runOperation, effectView, failureOf, isReadFamily, mapsNotFound,
      DatabaseAdapter.get, DatabaseAdapter.getCollections, DatabaseAdapter.search,
      DatabaseAdapter.getWhere, DatabaseAdapter.getAll, DatabaseAdapter.getAllWhere,
      DatabaseAdapter.request] <;>
    by_cases hsc : e.statusCode = some 404 <;> simp_all

/-- Witness for the amended C4: a 404 on `get` maps to the
document-not-found error. -/
theorem read_error_mapping_witness :
    (runOperation sampleWorld404 immAdapter (OperationCall.get ("c") none)).2.2 =
      some (Failure.thrown
        (if ({ statusCode := some 404 } : RemoteError).statusCode = some 404 ∧
            mapsNotFound (OperationCall.get ("c") none) = true
         then documentNotFoundMessage
         else serviceErrorMessage)) :=
  read_error_mapping sampleWorld404 immAdapter (OperationCall.get ("c") none)
    { statusCode := some 404 } rfl rfl (fun _ => rfl)

/-- Counterexample to C5 as stated: the combined transaction commit
carries only the two project headers; its header list is exactly the
auth headers and does not contain `Content-Type: application/json`. -/
theorem commit_headers_counterexample :
    (DatabaseAdapter.commitTransaction sampleWorldOk txAdapter).calls.map RequestOptions.headers =
      [[("X-Koji-Project-Id", "p1"), ("X-Koji-Project-Token", "t1")]] ∧
    ¬ (("Content-Type", "application/json") ∈
        [(("X-Koji-Project-Id" : String), ("p1" : String)), ("X-Koji-Project-Token", "t1")]) :=
  ⟨rfl, by decide⟩

/-- C5 amended: every network call issued by a store data-plane operation
(`get`, `getCollections`, `search`, `getWhere`, `getAll`, `getAllWhere`,
`set`, `update`, `arrayPush`, `arrayRemove`, `delete`) carries
`Content-Type: application/json` plus the two project headers; every
network call issued by the object-store operations and by the combined
transaction commit carries only the two project headers. -/
theorem request_headers_by_endpoint (w : World) (a : DatabaseAdapter) (op : OperationCall) :
    ((runOperation w a op).2.1).map RequestOptions.headers =
    ((runOperation w a op).2.1).map (fun _ =>
      if carriesContentType op = true then DatabaseAdapter.headersOf a.config
      else DatabaseAdapter.authHeadersOf a.config) := by
  cases op <;>
    simp only [runOperation, effectView, DatabaseAdapter.get, DatabaseAdapter.getCollections,
      DatabaseAdapter.search, DatabaseAdapter.getWhere, DatabaseAdapter.getAll,
      DatabaseAdapter.getAllWhere, DatabaseAdapter.set, DatabaseAdapter.update,
      DatabaseAdapter.arrayPush, DatabaseAdapter.arrayRemove, DatabaseAdapter.delete,
      DatabaseAdapter.uploadFile, DatabaseAdapter.generateSignedUploadRequest,
      DatabaseAdapter.transcodeAsset, DatabaseAdapter.getTranscodeStatus,
      DatabaseAdapter.commitTransaction, DatabaseAdapter.request] <;>
    (repeat' split) <;>
    simp_all [carriesContentType]

/-- C6: on an immediate-mode client every mutation resolves to a boolean,
true exactly when the remote call succeeded, false on any failure; no
error propagates, the adapter is unchanged, and exactly one network call
is issued. -/
theorem immediate_mutation_boolean (w : World) (a : DatabaseAdapter) (m : MutationCall)
    (h : a.mode = DatabaseAdapterMode.immediate) :
    runMutation w a m =
      { result := Except.ok (some
          (match w.oracle (mutationOptions w.nodeTest a.config m) with
           | Except.ok _ => true
           | Except.error _ => false)),
        adapter := a,
        calls := [mutationOptions w.nodeTest a.config m] } := by
  cases m <;>
    simp [runMutation, DatabaseAdapter.set, DatabaseAdapter.update, DatabaseAdapter.arrayPush,
      DatabaseAdapter.arrayRemove, DatabaseAdapter.delete, DatabaseAdapter.request,
      mutationOptions, h] <;>
    split <;> simp_all

/-- Witness for C6: a failing `set` on an immediate client resolves to
the boolean encoded by the oracle outcome (false here). -/
theorem immediate_mutation_boolean_witness :
    runMutation sampleWorld500 immAdapter (MutationCall.set ("c") ("d") Json.null) =
      { result := Except.ok (some
          (match sampleWorld500.oracle
              (mutationOptions sampleWorld500.nodeTest immAdapter.config
                (MutationCall.set ("c") ("d") Json.null)) with
           | Except.ok _ => true
           | Except.error _ => false)),
        adapter := immAdapter,
        calls := [mutationOptions sampleWorld500.nodeTest immAdapter.config
          (MutationCall.set ("c") ("d") Json.null)] } :=
  immediate_mutation_boolean sampleWorld500 immAdapter
    (MutationCall.set ("c") ("d") Json.null) rfl

/-- Counterexample to C7 as stated: with both environment variables
present but `KOJI_PROJECT_ID` bound to the empty string, construction
fails rather than taking the configuration from the environment. -/
theorem construct_counterexample :
    DatabaseAdapter.construct none
        { KOJI_PROJECT_ID := some "", KOJI_PROJECT_TOKEN := some ("t1") }
        DatabaseAdapterMode.immediate =
      Except.error (Failure.thrown missingConfigMessage) ∧
    ({ KOJI_PROJECT_ID := some "", KOJI_PROJECT_TOKEN := some ("t1") } : ProcessEnv).KOJI_PROJECT_ID ≠ none ∧
    ({ KOJI_PROJECT_ID := some "", KOJI_PROJECT_TOKEN := some ("t1") } : ProcessEnv).KOJI_PROJECT_TOKEN ≠ none :=
  ⟨rfl, by decide, by decide⟩

/-- C7 amended: an explicit configuration is used unchanged and the
environment is not consulted; without one, construction fails with the
configuration error when either environment variable is absent or
empty, and succeeds with the configuration drawn from the environment
when both are present and non-empty. -/
theorem construct_behavior (c : Config) (env env2 : ProcessEnv) (mode : DatabaseAdapterMode) :
    (DatabaseAdapter.construct (some c) env mode =
      Except.ok { config := c, mode := mode, transactionQueue := [] }) ∧
    (DatabaseAdapter.construct (some c) env mode = DatabaseAdapter.construct (some c) env2 mode) ∧
    ((envTruthy env.KOJI_PROJECT_ID = false ∨ envTruthy env.KOJI_PROJECT_TOKEN = false) →
      DatabaseAdapter.construct none env mode = Except.error (Failure.thrown missingConfigMessage)) ∧
    (∀ pid ptok, env.KOJI_PROJECT_ID = some pid → env.KOJI_PROJECT_TOKEN = some ptok →
      pid ≠ "" → ptok ≠ "" →
      DatabaseAdapter.construct none env mode =
        Except.ok
          { config := { projectId := pid, projectToken := ptok },
            mode := mode, transactionQueue := [] }) := by
  refine ⟨rfl, rfl, ?_, ?_⟩
  · intro hfalsy
    simp [DatabaseAdapter.construct, hfalsy]
  · intro pid ptok h1 h2 hne1 hne2
    simp [DatabaseAdapter.construct, h1, h2, envTruthy, hne1, hne2]

/-- Witness for the amended C7: both variables present and non-empty
yields the environment configuration. -/
theorem construct_behavior_witness :
    DatabaseAdapter.construct none
        { KOJI_PROJECT_ID := some ("p1"), KOJI_PROJECT_TOKEN := some ("t1") }
        DatabaseAdapterMode.immediate =
      Except.ok
        { config := { projectId := "p1", projectToken := "t1" },
          mode := DatabaseAdapterMode.immediate, transactionQueue := [] } :=
  (construct_behavior sampleConfig
      { KOJI_PROJECT_ID := some ("p1"), KOJI_PROJECT_TOKEN := some ("t1") }
      { KOJI_PROJECT_ID := none, KOJI_PROJECT_TOKEN := none }
      DatabaseAdapterMode.immediate).2.2.2 ("p1") ("t1") rfl rfl (by decide) (by decide)

/-- C8: `commitTransaction()` on a client not in transaction mode fails
with the not-in-transaction error, issues no network call, and leaves
the adapter unchanged. -/
theorem commit_not_in_transaction (w : World) (a : DatabaseAdapter)
    (h : a.mode ≠ DatabaseAdapterMode.transaction) :
    DatabaseAdapter.commitTransaction w a =
      { result := Except.error (Failure.thrown notInTransactionMessage),
        adapter := a, calls := [] } := by
  simp [DatabaseAdapter.commitTransaction, h]

/-- Witness for C8 at a concrete immediate-mode client. -/
theorem commit_not_in_transaction_witness :
    DatabaseAdapter.commitTransaction sampleWorldOk immAdapter =
      { result := Except.error (Failure.thrown notInTransactionMessage),
        adapter := immAdapter, calls := [] } :=
  commit_not_in_transaction sampleWorldOk immAdapter (by decide)

/-- C9: committing a transaction-mode client leaves its state (queue,
configuration, mode) unchanged, so an immediately repeated commit issues
exactly the same network call. -/
theorem commit_preserves_transaction_state (w : World) (a : DatabaseAdapter)
    (h : a.mode = DatabaseAdapterMode.transaction) :
    (DatabaseAdapter.commitTransaction w a).adapter = a ∧
    (DatabaseAdapter.commitTransaction w ((DatabaseAdapter.commitTransaction w a).adapter)).calls =
      (DatabaseAdapter.commitTransaction w a).calls := by
  have hadapter : (DatabaseAdapter.commitTransaction w a).adapter = a := by
    simp only [DatabaseAdapter.commitTransaction, h]
    split <;> (try split) <;> simp_all
  exact ⟨hadapter, by rw [hadapter]⟩

/-- Witness for C9 at a concrete transaction-mode client. -/
theorem commit_preserves_transaction_state_witness :
    (DatabaseAdapter.commitTransaction sampleWorldOk txAdapter).adapter = txAdapter ∧
    (DatabaseAdapter.commitTransaction sampleWorldOk
        ((DatabaseAdapter.commitTransaction sampleWorldOk txAdapter).adapter)).calls =
      (DatabaseAdapter.commitTransaction sampleWorldOk txAdapter).calls :=
  commit_preserves_transaction_state sampleWorldOk txAdapter rfl

/-- C10: on a successful transcode response whose `callbackTokens` field
is an array, the returned callback token is the first element of that
array, with no non-emptiness guard: an empty array yields an absent
(`none`) token. -/
theorem transcode_first_callback_token (w : World) (a : DatabaseAdapter)
    (path transcodeType : String) (resp : Json) (u : Option Json) (tokens : List Json)
    (h : a.mode = DatabaseAdapterMode.immediate)
    (ho : w.oracle
      { uri := buildUri w.nodeTest ("/v1/objectStore/transcode"),
        method := "POST",
        headers := DatabaseAdapter.authHeadersOf a.config,
        json := true,
        body := some (Json.obj [("path", Json.str path), ("type", Json.str transcodeType)]),
        formData := none } = Except.ok resp)
    (hu : jsGetField (some resp) ("url") = Except.ok u)
    (ht : jsGetField (some resp) ("callbackTokens") = Except.ok (some (Json.arr tokens))) :
    (DatabaseAdapter.transcodeAsset w a path transcodeType).result =
      Except.ok { url := u, callbackToken := tokens.head? } := by
  simp [DatabaseAdapter.transcodeAsset, DatabaseAdapter.request, h, ho, hu, ht, jsIndexZero]

/-- A world whose remote answers the transcode endpoint with an empty
`callbackTokens` array. -/
def sampleWorldTranscode : World :=
  { nodeTest := true,
    oracle := fun _ => Except.ok (Json.obj
      [("url", Json.str ("u1")), ("callbackTokens", Json.arr [])]) }

/-- Witness for C10: an empty `callbackTokens` array yields an absent
callback token. -/
theorem transcode_first_callback_token_witness :
    (DatabaseAdapter.transcodeAsset sampleWorldTranscode immAdapter ("p") ("video+hls")).result =
      Except.ok { url := some (Json.str ("u1")), callbackToken := ([] : List Json).head? } :=
  transcode_first_callback_token sampleWorldTranscode immAdapter ("p") ("video+hls")
    (Json.obj [("url", Json.str ("u1")), ("callbackTokens", Json.arr [])])
    (some (Json.str ("u1"))) [] rfl rfl rfl rfl
